import Mathlib

/-!
Verification of the two-quad OpenGL demo (src/code.c++).

The program is a linear setup followed by a render loop.  We embed it
shallowly as a trace of GL/GLFW events: every GL call the program issues
becomes one `Event`, and `mainRun` produces the trace of a whole run given
an `Env` describing the external world (whether window creation and
function loading succeed, the compile/link statuses and info logs the
driver reports, the uniform locations it hands out, the close signal, and
the clock).  The loop is run with explicit fuel: the `Bool` component of
`renderLoop` records whether a close was observed within the fuel.

The two fragment shaders are additionally embedded as functions
(`normalFragShader` over ℚ, `waveFragShader` over ℝ since it uses `sin`),
translated from the GLSL text `normalFragSource` / `waveFragSource` in the
source file.
-/

namespace TwoQuads

/-- Binding targets of `glBindBuffer` / `glBufferData` used by the program. -/
inductive BufTarget where
  | array
  | element
  deriving DecidableEq

/-- One externally visible GL/GLFW action of the program. -/
inductive Event where
  | printMsg (s : String)
  | createShader (id : Nat)
  | compileShader (id : Nat)
  | createProgram (id : Nat)
  | attachShader (program shader : Nat)
  | linkProgram (id : Nat)
  | deleteShader (id : Nat)
  | deleteProgram (id : Nat)
  | genVertexArray (id : Nat)
  | genBuffer (id : Nat)
  | bindVertexArray (id : Nat)
  | bindBuffer (target : BufTarget) (id : Nat)
  | bufferDataF (target : BufTarget) (data : List ℚ)
  | bufferDataU (target : BufTarget) (data : List Nat)
  | vertexAttribPointer (index comps stride offset : Nat)
  | enableVertexAttribArray (index : Nat)
  | clearColor (r g b a : ℚ)
  | clear
  | useProgram (id : Nat)
  | getUniformLocation (program : Nat) (name : String)
  | uniform1f (loc : Int) (value : ℚ)
  | drawElements (count : Nat) (byteOffset : Nat)
  | swapBuffers
  | pollEvents
  | deleteVertexArrays (id : Nat)
  | deleteBuffers (id : Nat)
  | glfwTerminate
  deriving DecidableEq

/-- The external world the program runs against: success of window creation
and GLAD loading, the driver-reported compile/link statuses and info logs
(indexed by shader/program handle), uniform locations, the close-request
signal polled at the top of each loop iteration, and the elapsed-time clock
sampled once per frame. -/
structure Env where
  windowCreated : Bool
  gladLoaded : Bool
  compileStatus : Nat → Bool
  shaderInfoLog : Nat → List Char
  linkStatus : Nat → Bool
  programInfoLog : Nat → List Char
  uniformLoc : Nat → String → Int
  shouldClose : Nat → Bool
  getTime : Nat → ℚ

/-- Handle of the shared vertex shader (first `glCreateShader`). -/
def vertexShaderId : Nat := 1

/-- Handle of the flat fragment shader (second `glCreateShader`). -/
def normalFragId : Nat := 2

/-- Handle of the wave fragment shader (third `glCreateShader`). -/
def waveFragId : Nat := 3

/-- Handle of the flat program (first `glCreateProgram`). -/
def normalShaderId : Nat := 1

/-- Handle of the wave program (second `glCreateProgram`). -/
def waveShaderId : Nat := 2

/-- Vertex-array name from `glGenVertexArrays`. -/
def VAO : Nat := 1

/-- Vertex-buffer name from `glGenBuffers`. -/
def VBO : Nat := 1

/-- Element-buffer name from `glGenBuffers`. -/
def EBO : Nat := 2

/-- `sizeof(float)` on the target platform. -/
def floatSize : Nat := 4

/-- `sizeof(unsigned int)` on the target platform. -/
def uintSize : Nat := 4

/-- Name of the wave program's time uniform. -/
def timeUniformName : String := "time"

/-- Message printed when `glfwCreateWindow` fails (src/code.c++ line 83). -/
def windowFailMsg : String := "Failed to create GLFW window\n"

/-- Message printed when `gladLoadGLLoader` fails (src/code.c++ line 87). -/
def gladFailMsg : String := "Failed to init GLAD\n"

/-- The diagnostic `checkCompile` prints on failure: the fixed prefix text,
then the info log.  `glGetShaderInfoLog(shader, 512, NULL, infoLog)` writes
at most 511 characters plus a terminator into the 512-byte buffer, hence
the `take 511`; `std::endl` appends the final newline. -/
def compileErrorMsg (log : List Char) : String :=
  "Shader compilation error:\n" ++ String.mk (log.take 511) ++ "\n"

/-- The diagnostic `checkLink` prints on failure, analogous to
`compileErrorMsg`. -/
def linkErrorMsg (log : List Char) : String :=
  "Program linking error:\n" ++ String.mk (log.take 511) ++ "\n"

/-- Embedding of `checkCompile` (src/code.c++ lines 49-59): query the
compile status of `shader`; if it failed, fetch the bounded info log and
print a diagnostic.  Returns the (possibly empty) list of print events. -/
def checkCompile (env : Env) (shader : Nat) : List Event :=
  if env.compileStatus shader then []
  else [Event.printMsg (compileErrorMsg (env.shaderInfoLog shader))]

/-- Embedding of `checkLink` (src/code.c++ lines 62-72): query the link
status of `program`; if it failed, fetch the bounded info log and print a
diagnostic. -/
def checkLink (env : Env) (program : Nat) : List Event :=
  if env.linkStatus program then []
  else [Event.printMsg (linkErrorMsg (env.programInfoLog program))]

/-- Shader-stage creation and compilation events (src/code.c++ lines
92-102): the shared vertex shader and the two fragment shaders, each
compiled and checked. -/
def compileEvents (env : Env) : List Event :=
  [Event.createShader vertexShaderId, Event.compileShader vertexShaderId]
    ++ checkCompile env vertexShaderId
    ++ [Event.createShader normalFragId, Event.compileShader normalFragId]
    ++ checkCompile env normalFragId
    ++ [Event.createShader waveFragId, Event.compileShader waveFragId]
    ++ checkCompile env waveFragId

/-- Program creation and linking events (src/code.c++ lines 104-112): both
programs attach the shared vertex shader and their own fragment shader,
then link and check. -/
def linkEvents (env : Env) : List Event :=
  [Event.createProgram normalShaderId,
   Event.attachShader normalShaderId vertexShaderId,
   Event.attachShader normalShaderId normalFragId,
   Event.linkProgram normalShaderId]
    ++ checkLink env normalShaderId
    ++ [Event.createProgram waveShaderId,
        Event.attachShader waveShaderId vertexShaderId,
        Event.attachShader waveShaderId waveFragId,
        Event.linkProgram waveShaderId]
    ++ checkLink env waveShaderId

/-- The three `glDeleteShader` calls issued right after both links
(src/code.c++ lines 114-116). -/
def shaderDeleteEvents : List Event :=
  [Event.deleteShader vertexShaderId,
   Event.deleteShader normalFragId,
   Event.deleteShader waveFragId]

/-- All shader-building events, in source order (src/code.c++ lines
92-116). -/
def buildShadersEvents (env : Env) : List Event :=
  compileEvents env ++ linkEvents env ++ shaderDeleteEvents

/-- The `vertices` array (src/code.c++ lines 121-134): eight vertices of
five floats each, interleaved position (3) + texcoord (2); quad 1 first,
quad 2 second. -/
def vertices : List ℚ :=
  [-0.9,  0.5, 0,  0, 1,
   -0.9,  0,   0,  0, 0,
   -0.5,  0,   0,  1, 0,
   -0.5,  0.5, 0,  1, 1,
    0.5,  0.5, 0,  0, 1,
    0.5,  0,   0,  0, 0,
    0.9,  0,   0,  1, 0,
    0.9,  0.5, 0,  1, 1]

/-- The `indices` array (src/code.c++ lines 136-139): two triangles per
quad. -/
def indices : List Nat :=
  [0, 1, 2, 0, 2, 3,
   4, 5, 6, 4, 6, 7]

/-- Geometry setup events (src/code.c++ lines 141-160): generate the
vertex array and the two buffers, bind them, upload the vertex and index
data once, describe the two attributes, and unbind. -/
def geometrySetup : List Event :=
  [Event.genVertexArray VAO,
   Event.genBuffer VBO,
   Event.genBuffer EBO,
   Event.bindVertexArray VAO,
   Event.bindBuffer BufTarget.array VBO,
   Event.bufferDataF BufTarget.array vertices,
   Event.bindBuffer BufTarget.element EBO,
   Event.bufferDataU BufTarget.element indices,
   Event.vertexAttribPointer 0 3 (5 * floatSize) 0,
   Event.enableVertexAttribArray 0,
   Event.vertexAttribPointer 1 2 (5 * floatSize) (3 * floatSize),
   Event.enableVertexAttribArray 1,
   Event.bindVertexArray 0]

/-- One iteration of the render loop body (src/code.c++ lines 167-185):
clear to dark gray, bind the vertex array, draw quad 1 with the flat
program, then switch to the wave program, sample the clock, write the time
uniform, draw quad 2, swap and poll.  `n` is the frame number, used only
to index the clock. -/
def frameEvents (env : Env) (n : Nat) : List Event :=
  [Event.clearColor 0.2 0.2 0.2 1,
   Event.clear,
   Event.bindVertexArray VAO,
   Event.useProgram normalShaderId,
   Event.drawElements 6 0,
   Event.useProgram waveShaderId,
   Event.getUniformLocation waveShaderId timeUniformName,
   Event.uniform1f (env.uniformLoc waveShaderId timeUniformName) (env.getTime n),
   Event.drawElements 6 (6 * uintSize),
   Event.swapBuffers,
   Event.pollEvents]

/-- The render loop (src/code.c++ lines 165-186), with explicit fuel.
`renderLoop env fuel n` polls the close signal at iteration `n`; if set it
stops (returning `true`), otherwise it runs one frame and continues.  Fuel
exhaustion returns `false`: the loop was still running. -/
def renderLoop (env : Env) : Nat → Nat → List Event × Bool
  | 0, _ => ([], false)
  | fuel + 1, n =>
    if env.shouldClose n then ([], true)
    else
      let r := renderLoop env fuel (n + 1)
      (frameEvents env n ++ r.1, r.2)

/-- The frames the loop runs when the close signal first appears at
iteration check `start + j`: frames `start, start+1, ..., start+j-1` in
order. -/
def framesFrom (env : Env) (start : Nat) : Nat → List Event
  | 0 => []
  | j + 1 => frameEvents env start ++ framesFrom env (start + 1) j

/-- Cleanup events after the loop (src/code.c++ lines 188-195): delete the
vertex array, both buffers and both programs, then terminate GLFW. -/
def cleanupEvents : List Event :=
  [Event.deleteVertexArrays VAO,
   Event.deleteBuffers VBO,
   Event.deleteBuffers EBO,
   Event.deleteProgram normalShaderId,
   Event.deleteProgram waveShaderId,
   Event.glfwTerminate]

/-- Result of a whole run: the exit code (`none` while the loop is still
running at fuel exhaustion) and the event trace. -/
structure RunResult where
  exitCode : Option Int
  trace : List Event
  deriving DecidableEq

/-- Embedding of `main` (src/code.c++ lines 74-197).  Window-creation or
GLAD failure prints a message and returns `-1` immediately; otherwise the
shaders are built, the geometry uploaded, the loop run, and on a close the
resources are deleted and `0` returned. -/
def mainRun (env : Env) (fuel : Nat) : RunResult :=
  if env.windowCreated = false then
    { exitCode := some (-1), trace := [Event.printMsg windowFailMsg] }
  else if env.gladLoaded = false then
    { exitCode := some (-1), trace := [Event.printMsg gladFailMsg] }
  else
    let setup := buildShadersEvents env ++ geometrySetup
    let r := renderLoop env fuel 0
    if r.2 then
      { exitCode := some 0, trace := setup ++ r.1 ++ cleanupEvents }
    else
      { exitCode := none, trace := setup ++ r.1 }

/-- Embedding of the flat fragment shader `normalFragSource` (src/code.c++
lines 23-32): it reads neither a uniform nor any time-dependent input and
always emits the constant color. -/
def normalFragShader (texCoord : ℚ × ℚ) : ℚ × ℚ × ℚ × ℚ :=
  (0.8, 0.4, 0.2, 1)

/-- Embedding of the wave fragment shader `waveFragSource` (src/code.c++
lines 35-46): `wave = sin(TexCoord.x * 10.0 + time * 5.0) * 0.1` and the
output is `vec4(0.2 + wave, 0.5, 1.0, 1.0)`. -/
noncomputable def waveFragShader (time : ℝ) (texCoord : ℝ × ℝ) : ℝ × ℝ × ℝ × ℝ :=
  (0.2 + Real.sin (texCoord.1 * 10 + time * 5) * 0.1, 0.5, 1, 1)

/-- Does the event write GPU buffer contents? -/
def isBufferWrite : Event → Bool
  | Event.bufferDataF _ _ => true
  | Event.bufferDataU _ _ => true
  | _ => false

/-- Does the event release a GPU object? -/
def isReleaseEvent : Event → Bool
  | Event.deleteShader _ => true
  | Event.deleteProgram _ => true
  | Event.deleteVertexArrays _ => true
  | Event.deleteBuffers _ => true
  | _ => false

/-- Is the event an indexed draw call? -/
def isDraw : Event → Bool
  | Event.drawElements _ _ => true
  | _ => false

/-- Is the event a uniform write? -/
def isUniformWrite : Event → Bool
  | Event.uniform1f _ _ => true
  | _ => false

/-- The portion of a trace up to and including its first draw call. -/
def upToFirstDraw (t : List Event) : List Event :=
  t.takeWhile (fun e => !isDraw e) ++ (t.dropWhile (fun e => !isDraw e)).take 1

/-- A sample environment for concrete evaluation: everything succeeds, the
close signal appears at iteration check 2, the clock returns the frame
number. -/
def sampleEnv : Env where
  windowCreated := true
  gladLoaded := true
  compileStatus := fun _ => true
  shaderInfoLog := fun _ => []
  linkStatus := fun _ => true
  programInfoLog := fun _ => []
  uniformLoc := fun _ _ => 0
  shouldClose := fun n => decide (2 ≤ n)
  getTime := fun n => (n : ℚ)

/-- `sampleEnv` with every compile and link failing, used to exercise the
error path. -/
def failEnv : Env :=
  { sampleEnv with
    compileStatus := fun _ => false
    linkStatus := fun _ => false
    shaderInfoLog := fun _ => [Char.ofNat 101],
    programInfoLog := fun _ => [Char.ofNat 101] }

/-- The loop's done flag depends only on the close signal and the fuel. -/
lemma renderLoop_done_eq (env env2 : Env) (h : env.shouldClose = env2.shouldClose) :
    ∀ fuel n, (renderLoop env fuel n).2 = (renderLoop env2 fuel n).2 := by
  intro fuel
  induction fuel with
  | zero => intro n; rfl
  | succ f ih =>
    intro n
    unfold renderLoop
    rw [h]
    by_cases hc : env2.shouldClose n
    · simp [hc]
    · simp [hc, ih (n + 1)]

/-- If the close signal first appears at iteration check `start + j`, the
loop runs exactly frames `start .. start + j - 1` and reports done. -/
lemma renderLoop_closes (env : Env) :
    ∀ j start fuel, (∀ m, m < j → env.shouldClose (start + m) = false) →
      env.shouldClose (start + j) = true → j < fuel →
      renderLoop env fuel start = (framesFrom env start j, true) := by
  intro j
  induction j with
  | zero =>
    intro start fuel hopen hclose hfuel
    match fuel, hfuel with
    | f + 1, _ =>
      unfold renderLoop
      simp only [Nat.add_zero] at hclose
      simp [hclose, framesFrom]
  | succ j ih =>
    intro start fuel hopen hclose hfuel
    match fuel, hfuel with
    | f + 1, hf =>
      have h0 : env.shouldClose start = false := by
        have := hopen 0 (Nat.succ_pos j)
        simpa using this
      have hih := ih (start + 1) f
        (fun m hm => by
          have := hopen (m + 1) (Nat.succ_lt_succ hm)
          have he : start + (m + 1) = start + 1 + m := by omega
          rwa [he] at this)
        (by
          have he : start + (j + 1) = start + 1 + j := by omega
          rwa [he] at hclose)
        (by omega)
      unfold renderLoop
      simp [h0, framesFrom, hih]

/-- Frame bodies perform no buffer upload. -/
lemma frameEvents_filter_bufferWrite (env : Env) (n : Nat) :
    (frameEvents env n).filter isBufferWrite = [] := rfl

/-- Frame bodies release no GPU object. -/
lemma frameEvents_filter_release (env : Env) (n : Nat) :
    (frameEvents env n).filter isReleaseEvent = [] := rfl

/-- The loop's trace contains no event matched by `p` as soon as no frame
body does. -/
lemma renderLoop_filter (env : Env) (p : Event → Bool)
    (hp : ∀ n, (frameEvents env n).filter p = []) :
    ∀ fuel n, ((renderLoop env fuel n).1).filter p = [] := by
  intro fuel
  induction fuel with
  | zero => intro n; rfl
  | succ f ih =>
    intro n
    unfold renderLoop
    by_cases hc : env.shouldClose n
    · simp [hc]
    · simp [hc, List.filter_append, hp, ih (n + 1)]

/-- Shader building performs no buffer upload, whatever the compile and
link statuses. -/
lemma buildShaders_filter_bufferWrite (env : Env) :
    (buildShadersEvents env).filter isBufferWrite = [] := by
  unfold buildShadersEvents compileEvents linkEvents shaderDeleteEvents
    checkCompile checkLink
  split <;> split <;> split <;> split <;> split <;> rfl

/-- The only release events during shader building are the three shader
deletes issued after both links, whatever the statuses. -/
lemma buildShaders_filter_release (env : Env) :
    (buildShadersEvents env).filter isReleaseEvent = shaderDeleteEvents := by
  unfold buildShadersEvents compileEvents linkEvents shaderDeleteEvents
    checkCompile checkLink
  split <;> split <;> split <;> split <;> split <;> rfl

/-- Link events always contain exactly the two program links, whatever the
statuses. -/
lemma linkEvents_filter_link (env : Env) :
    (linkEvents env).filter (fun e => match e with
      | Event.linkProgram _ => true
      | _ => false) =
      [Event.linkProgram normalShaderId, Event.linkProgram waveShaderId] := by
  unfold linkEvents checkLink
  split <;> split <;> rfl

/-- Claim C1: every render-loop iteration while no close has been
signalled produces exactly the ordered frame sequence — clear to the fixed
opaque dark gray, bind the shared vertex array, flat program then draw of
6 indices at index offset 0, wave program then a fresh read of the elapsed
time written into the wave program's time uniform and only then the draw
of 6 indices at index offset 6 (byte offset `6 * uintSize`), swap and
poll; the only uniform write of the frame carries this frame's time and
targets the wave program's location, and no uniform write occurs before
the flat draw. -/
theorem frame_sequence (env : Env) (n fuel : Nat)
    (hopen : env.shouldClose n = false) :
    renderLoop env (fuel + 1) n =
      (frameEvents env n ++ (renderLoop env fuel (n + 1)).1,
       (renderLoop env fuel (n + 1)).2) ∧
    frameEvents env n =
      [Event.clearColor 0.2 0.2 0.2 1,
       Event.clear,
       Event.bindVertexArray VAO,
       Event.useProgram normalShaderId,
       Event.drawElements 6 0,
       Event.useProgram waveShaderId,
       Event.getUniformLocation waveShaderId timeUniformName,
       Event.uniform1f (env.uniformLoc waveShaderId timeUniformName) (env.getTime n),
       Event.drawElements 6 (6 * uintSize),
       Event.swapBuffers,
       Event.pollEvents] ∧
    (frameEvents env n).filter isUniformWrite =
      [Event.uniform1f (env.uniformLoc waveShaderId timeUniformName) (env.getTime n)] ∧
    (upToFirstDraw (frameEvents env n)).filter isUniformWrite = [] := by
  refine ⟨?_, rfl, rfl, rfl⟩
  simp [renderLoop, hopen]

/-- Witness for `frame_sequence` at the sample environment, frame 0. -/
theorem frame_sequence_witness :
    sampleEnv.shouldClose 0 = false ∧
    (frameEvents sampleEnv 0).filter isUniformWrite =
      [Event.uniform1f (sampleEnv.uniformLoc waveShaderId timeUniformName)
        (sampleEnv.getTime 0)] :=
  ⟨by decide, (frame_sequence sampleEnv 0 3 (by decide)).2.2.1⟩

/-- Claim C2: the index buffer holds exactly 12 indices, all in `[0,7]`;
the first six reference only `{0,1,2,3}` and the last six only
`{4,5,6,7}`, so the two quads share no vertex. -/
theorem indices_partition :
    indices.length = 12 ∧
    indices.all (fun i => decide (i ≤ 7)) = true ∧
    (indices.take 6).all (fun i => [0, 1, 2, 3].contains i) = true ∧
    (indices.drop 6).all (fun i => [4, 5, 6, 7].contains i) = true ∧
    ((indices.take 6).filter (fun i => (indices.drop 6).contains i)) = [] := by
  decide

/-- Claim C7: the geometry is 8 vertices of 5 floats each and 12 indices,
uploaded through a single vertex array whose attribute 0 is the position
(3 floats at offset 0) and attribute 1 the texcoord (2 floats at offset
3 floats), both with stride 5 floats. -/
theorem geometry_layout :
    vertices.length = 8 * 5 ∧
    indices.length = 12 ∧
    geometrySetup.countP (fun e => match e with
      | Event.genVertexArray _ => true
      | _ => false) = 1 ∧
    geometrySetup.countP (fun e => match e with
      | Event.genBuffer _ => true
      | _ => false) = 2 ∧
    geometrySetup.get? 5 = some (Event.bufferDataF BufTarget.array vertices) ∧
    geometrySetup.get? 7 = some (Event.bufferDataU BufTarget.element indices) ∧
    geometrySetup.get? 8 = some (Event.vertexAttribPointer 0 3 (5 * floatSize) 0) ∧
    geometrySetup.get? 9 = some (Event.enableVertexAttribArray 0) ∧
    geometrySetup.get? 10 =
      some (Event.vertexAttribPointer 1 2 (5 * floatSize) (3 * floatSize)) ∧
    geometrySetup.get? 11 = some (Event.enableVertexAttribArray 1) ∧
    geometrySetup.all (fun e => match e with
      | Event.vertexAttribPointer _ _ s _ => s == 5 * floatSize
      | _ => true) = true ∧
    floatSize = 4 :=
  ⟨rfl, rfl, rfl, rfl, rfl, rfl, rfl, rfl, rfl, rfl, rfl, rfl⟩

/-- Claim C9: the flat program's fragment output is the constant color
`(0.8, 0.4, 0.2, 1.0)` at every texture coordinate, and the portion of any
frame that renders the first quad (everything up to and including the
first draw call) is the same fixed event list for every environment and
every frame — in particular for two frames or two runs with different
elapsed-time values. -/
theorem flat_output_time_independent (env env2 : Env) (n m : Nat) (tc : ℚ × ℚ) :
    upToFirstDraw (frameEvents env n) = upToFirstDraw (frameEvents env2 m) ∧
    upToFirstDraw (frameEvents env n) =
      [Event.clearColor 0.2 0.2 0.2 1,
       Event.clear,
       Event.bindVertexArray VAO,
       Event.useProgram normalShaderId,
       Event.drawElements 6 0] ∧
    normalFragShader tc = (0.8, 0.4, 0.2, 1) :=
  ⟨rfl, rfl, rfl⟩

/-- Claim C10: for every time and texture coordinate the wave term
`sin(TexCoord.x * 10 + time * 5) * 0.1` lies in `[-0.1, 0.1]`, so the wave
shader's output is `(r, 0.5, 1.0, 1.0)` with `r ∈ [0.1, 0.3]`, and every
component of the emitted color lies in `[0, 1]`. -/
theorem wave_output_bounds (time x y : ℝ) :
    waveFragShader time (x, y) =
      (0.2 + Real.sin (x * 10 + time * 5) * 0.1, 0.5, 1, 1) ∧
    -0.1 ≤ Real.sin (x * 10 + time * 5) * 0.1 ∧
    Real.sin (x * 10 + time * 5) * 0.1 ≤ 0.1 ∧
    0.1 ≤ 0.2 + Real.sin (x * 10 + time * 5) * 0.1 ∧
    0.2 + Real.sin (x * 10 + time * 5) * 0.1 ≤ 0.3 ∧
    0 ≤ 0.2 + Real.sin (x * 10 + time * 5) * 0.1 ∧
    0.2 + Real.sin (x * 10 + time * 5) * 0.1 ≤ 1 ∧
    (0:ℝ) ≤ 0.5 ∧ (0.5:ℝ) ≤ 1 ∧ (0:ℝ) ≤ 1 ∧ (1:ℝ) ≤ 1 := by
  have h1 := Real.neg_one_le_sin (x * 10 + time * 5)
  have h2 := Real.sin_le_one (x * 10 + time * 5)
  refine ⟨rfl, ?_, ?_, ?_, ?_, ?_, ?_, ?_, ?_, ?_, ?_⟩ <;> nlinarith

/-- Claim C3: every compile and link failure is detected by a status query
and reported by printing a diagnostic whose info-log portion fits a
512-byte buffer (at most 511 characters plus terminator); on success
nothing is printed; and no such failure aborts the process — the exit code
agrees with that of any environment with the same window, GLAD and close
behavior, whatever the statuses and logs. -/
theorem compile_link_error_reporting (env env2 : Env) (s p fuel : Nat)
    (hw : env.windowCreated = env2.windowCreated)
    (hg : env.gladLoaded = env2.gladLoaded)
    (hc : env.shouldClose = env2.shouldClose) :
    checkCompile env s =
      (if env.compileStatus s then []
       else [Event.printMsg (compileErrorMsg (env.shaderInfoLog s))]) ∧
    checkLink env p =
      (if env.linkStatus p then []
       else [Event.printMsg (linkErrorMsg (env.programInfoLog p))]) ∧
    (String.mk ((env.shaderInfoLog s).take 511)).length ≤ 512 ∧
    (String.mk ((env.programInfoLog p).take 511)).length ≤ 512 ∧
    (compileErrorMsg (env.shaderInfoLog s)).length ≤ 26 + 512 ∧
    (linkErrorMsg (env.programInfoLog p)).length ≤ 23 + 512 ∧
    (mainRun env fuel).exitCode = (mainRun env2 fuel).exitCode := by
  have hlen1 : (String.mk ((env.shaderInfoLog s).take 511)).length ≤ 511 := by
    simp [String.length]
  have hlen2 : (String.mk ((env.programInfoLog p).take 511)).length ≤ 511 := by
    simp [String.length]
  refine ⟨rfl, rfl, by omega, by omega, ?_, ?_, ?_⟩
  · unfold compileErrorMsg
    rw [String.length_append, String.length_append]
    have : ("Shader compilation error:\n" : String).length = 26 := rfl
    have : ("\n" : String).length = 1 := rfl
    omega
  · unfold linkErrorMsg
    rw [String.length_append, String.length_append]
    have : ("Program linking error:\n" : String).length = 23 := rfl
    have : ("\n" : String).length = 1 := rfl
    omega
  · have hdone := renderLoop_done_eq env env2 hc fuel 0
    unfold mainRun
    rw [← hw, ← hg]
    by_cases h1 : env.windowCreated = false
    · simp [h1]
    · by_cases h2 : env.gladLoaded = false
      · simp [h1, h2]
      · by_cases h3 : (renderLoop env2 fuel 0).2
        · simp [h1, h2, hdone, h3]
        · simp [h1, h2, hdone, h3]

/-- Witness for `compile_link_error_reporting`: the all-failing
environment exits exactly like the all-succeeding one. -/
theorem compile_link_error_reporting_witness :
    (mainRun failEnv 5).exitCode = (mainRun sampleEnv 5).exitCode :=
  (compile_link_error_reporting failEnv sampleEnv vertexShaderId normalShaderId 5
    rfl rfl rfl).2.2.2.2.2.2

/-- Claim C4: the run exits with code 0 exactly when the loop observes a
window close (window and GLAD having succeeded), with a negative code
(`-1`) exactly when window creation or GLAD loading fails, and no other
exit paths exist. -/
theorem exit_codes (env : Env) (fuel : Nat) :
    ((mainRun env fuel).exitCode = some (-1) ↔
      (env.windowCreated = false ∨ env.gladLoaded = false)) ∧
    ((mainRun env fuel).exitCode = some 0 ↔
      (env.windowCreated = true ∧ env.gladLoaded = true ∧
        (renderLoop env fuel 0).2 = true)) ∧
    ((mainRun env fuel).exitCode = some 0 ∨
     (mainRun env fuel).exitCode = some (-1) ∨
     (mainRun env fuel).exitCode = none) := by
  unfold mainRun
  by_cases h1 : env.windowCreated = false
  · simp [h1]
  · by_cases h2 : env.gladLoaded = false
    · simp [h1, h2]
    · by_cases h3 : (renderLoop env fuel 0).2
      · simp [h1, h2, h3, eq_true_of_ne_false h1, eq_true_of_ne_false h2]
      · simp [h1, h2, h3]

/-- Claim C5: when the close signal first appears at iteration check `n`,
the loop exits right there — it runs exactly frames `0 .. n-1` and no
frame after the signal — and the trace then ends with the release of every
remaining GPU resource (vertex array, both buffers, both programs) before
the process returns 0. -/
theorem close_request_exits (env : Env) (n fuel : Nat)
    (hopen : ∀ m, m < n → env.shouldClose m = false)
    (hclose : env.shouldClose n = true)
    (hfuel : n < fuel)
    (hw : env.windowCreated = true)
    (hg : env.gladLoaded = true) :
    renderLoop env fuel 0 = (framesFrom env 0 n, true) ∧
    (mainRun env fuel).exitCode = some 0 ∧
    (mainRun env fuel).trace =
      buildShadersEvents env ++ geometrySetup ++ framesFrom env 0 n
        ++ cleanupEvents ∧
    cleanupEvents.filter isReleaseEvent =
      [Event.deleteVertexArrays VAO,
       Event.deleteBuffers VBO,
       Event.deleteBuffers EBO,
       Event.deleteProgram normalShaderId,
       Event.deleteProgram waveShaderId] := by
  have hr := renderLoop_closes env n 0 fuel (by simpa using hopen)
    (by simpa using hclose) hfuel
  refine ⟨hr, ?_, ?_, rfl⟩ <;>
    simp [mainRun, hw, hg, hr, List.append_assoc]

/-- Witness for `close_request_exits` at the sample environment, whose
close signal first appears at check 2. -/
theorem close_request_exits_witness :
    (mainRun sampleEnv 5).exitCode = some 0 ∧
    (mainRun sampleEnv 5).trace =
      buildShadersEvents sampleEnv ++ geometrySetup ++ framesFrom sampleEnv 0 2
        ++ cleanupEvents :=
  have h := close_request_exits sampleEnv 2 5 (by decide) (by decide)
    (by decide) rfl rfl
  ⟨h.2.1, h.2.2.1⟩

/-- Claim C6: the vertex and index buffers are written exactly once each,
during setup — the whole trace of a run contains exactly the two buffer
uploads, with exactly the vertex and index data, and no frame or cleanup
event ever writes a buffer, so the geometry is immutable for the process
lifetime. -/
theorem geometry_written_once (env : Env) (fuel n : Nat)
    (hw : env.windowCreated = true)
    (hg : env.gladLoaded = true) :
    ((mainRun env fuel).trace).filter isBufferWrite =
      [Event.bufferDataF BufTarget.array vertices,
       Event.bufferDataU BufTarget.element indices] ∧
    geometrySetup.filter isBufferWrite =
      [Event.bufferDataF BufTarget.array vertices,
       Event.bufferDataU BufTarget.element indices] ∧
    (frameEvents env n).filter isBufferWrite = [] ∧
    cleanupEvents.filter isBufferWrite = [] := by
  refine ⟨?_, rfl, rfl, rfl⟩
  have hloop := renderLoop_filter env isBufferWrite
    (frameEvents_filter_bufferWrite env) fuel 0
  unfold mainRun
  by_cases h3 : (renderLoop env fuel 0).2 <;>
    simp [hw, hg, h3, List.filter_append, buildShaders_filter_bufferWrite,
      hloop] <;> rfl

/-- Witness for `geometry_written_once` at the sample environment. -/
theorem geometry_written_once_witness :
    ((mainRun sampleEnv 5).trace).filter isBufferWrite =
      [Event.bufferDataF BufTarget.array vertices,
       Event.bufferDataU BufTarget.element indices] :=
  (geometry_written_once sampleEnv 5 0 rfl rfl).1

/-- Claim C8: on the normal-exit path every GPU object is released exactly
once — the release events of the whole trace are precisely the three
shader deletes (issued during setup, after both links: the shader-building
trace is compile events, then link events containing both program links,
then the deletes), followed at shutdown by one delete each for the vertex
array, the two buffers and the two programs; no double free, nothing left
undeleted. -/
theorem resources_released_once (env : Env) (fuel : Nat)
    (hw : env.windowCreated = true)
    (hg : env.gladLoaded = true)
    (hdone : (renderLoop env fuel 0).2 = true) :
    ((mainRun env fuel).trace).filter isReleaseEvent =
      [Event.deleteShader vertexShaderId,
       Event.deleteShader normalFragId,
       Event.deleteShader waveFragId,
       Event.deleteVertexArrays VAO,
       Event.deleteBuffers VBO,
       Event.deleteBuffers EBO,
       Event.deleteProgram normalShaderId,
       Event.deleteProgram waveShaderId] ∧
    buildShadersEvents env =
      compileEvents env ++ linkEvents env ++ shaderDeleteEvents ∧
    (buildShadersEvents env).filter isReleaseEvent = shaderDeleteEvents ∧
    (linkEvents env).filter (fun e => match e with
      | Event.linkProgram _ => true
      | _ => false) =
      [Event.linkProgram normalShaderId, Event.linkProgram waveShaderId] := by
  refine ⟨?_, rfl, buildShaders_filter_release env, linkEvents_filter_link env⟩
  have hloop := renderLoop_filter env isReleaseEvent
    (frameEvents_filter_release env) fuel 0
  unfold mainRun
  simp [hw, hg, hdone, List.filter_append, buildShaders_filter_release, hloop]
  rfl

/-- Witness for `resources_released_once` at the sample environment. -/
theorem resources_released_once_witness :
    ((mainRun sampleEnv 5).trace).filter isReleaseEvent =
      [Event.deleteShader vertexShaderId,
       Event.deleteShader normalFragId,
       Event.deleteShader waveFragId,
       Event.deleteVertexArrays VAO,
       Event.deleteBuffers VBO,
       Event.deleteBuffers EBO,
       Event.deleteProgram normalShaderId,
       Event.deleteProgram waveShaderId] :=
  (resources_released_once sampleEnv 5 rfl rfl rfl).1

end TwoQuads
